import Mathlib

/-!
# Verification of the groupscholar signal catalog (`src/app.py`)

A shallow embedding of the signal tracker: calendar dates are modelled as
proleptic-Gregorian ordinals (`Int`, with `dateOrdinal 1 1 1 = 1`, matching
Python's `date.toordinal`), rows as a structure of optional strings, the
mutating commands as pure functions on a list of rows, and the reporting
commands as pure functions on the fetched row snapshots.
-/

namespace SignalCatalog

/-! ## Calendar arithmetic -/

/-- Fold a list of decimal digit characters (most significant first) to a `Nat`. -/
def digitsToNat (cs : List Char) : Nat :=
  cs.foldl (fun n c => n * 10 + (c.toNat - 48)) 0

/-- Every character is a decimal digit. -/
def allDigits (cs : List Char) : Bool :=
  cs.all (fun c => c.isDigit)

/-- Gregorian leap-year rule, as in Python's `calendar.isleap`. -/
def isLeapYear (y : Nat) : Bool :=
  (y % 4 == 0 && y % 100 != 0) || (y % 400 == 0)

/-- Length of month `m` (1-12) in year `y`. -/
def daysInMonth (y m : Nat) : Nat :=
  if m == 2 then (if isLeapYear y then 29 else 28)
  else if m == 4 || m == 6 || m == 9 || m == 11 then 30
  else 31

/-- Days in year `y` strictly before month `m`. -/
def daysBeforeMonth (y m : Nat) : Nat :=
  (List.range (m - 1)).foldl (fun acc i => acc + daysInMonth y (i + 1)) 0

/-- Proleptic-Gregorian ordinal of year/month/day, as `date.toordinal`:
`dateOrdinal 1 1 1 = 1`, and January 1 of year 1 is a Monday. -/
def dateOrdinal (y m d : Nat) : Int :=
  let p : Int := (y : Int) - 1
  365 * p + p / 4 - p / 100 + p / 400 + (daysBeforeMonth y m : Int) + (d : Int)

/-- Python `date.weekday()`: 0 = Monday, ..., 6 = Sunday. -/
def weekdayOf (o : Int) : Int :=
  (o - 1) % 7

/-! ## `parse_date` (app.py:51-64)

`parse_date` tries, in order, the `strptime` formats `"%Y-%m-%d"`,
`"%Y-%m-%dT%H:%M:%SZ"`, `"%Y-%m-%d %H:%M:%S"`, `"%Y-%m-%d %H:%M:%S%z"`,
returning the `.date()` of the first success and `None` when the value is
falsy or no format matches.  The functions below reproduce the `_strptime`
field patterns: `%Y` is exactly four digits, `%m`/`%d`/`%H`/`%M`/`%S` are
one or two digits with the usual range checks, literal `T`/`Z` match
case-insensitively, whitespace in the format matches a run of whitespace,
and an out-of-range calendar date or UTC offset is a parse failure.
Characters are processed as `List Char` so that every function reduces. -/

/-- Split a character list at every occurrence of `sep`. -/
def splitOnChar (sep : Char) : List Char → List (List Char)
  | [] => [[]]
  | c :: rest =>
    let r := splitOnChar sep rest
    if c == sep then [] :: r
    else
      match r with
      | g :: gs => (c :: g) :: gs
      | [] => [[c]]

/-- A numeric `strptime` field: `lo ≤ length ≤ hi` digits, value at most `maxV`. -/
def parseField (cs : List Char) (lo hi maxV : Nat) : Option Nat :=
  if lo ≤ cs.length && cs.length ≤ hi && allDigits cs then
    let v := digitsToNat cs
    if v ≤ maxV then some v else none
  else none

/-- The date part `"%Y-%m-%d"`, including the calendar validity check done by
the `date` constructor. -/
def parseYMD (cs : List Char) : Option (Nat × Nat × Nat) :=
  match splitOnChar '-' cs with
  | [ys, ms, ds] =>
    match parseField ys 4 4 9999, parseField ms 1 2 12, parseField ds 1 2 31 with
    | some y, some m, some d =>
      if 1 ≤ y && 1 ≤ m && 1 ≤ d && d ≤ daysInMonth y m then some (y, m, d) else none
    | _, _, _ => none
  | _ => none

/-- The time part `"%H:%M:%S"` (`%S` admits leap seconds up to 61). -/
def validHMS (cs : List Char) : Bool :=
  match splitOnChar ':' cs with
  | [hs, ms, ss] =>
    (parseField hs 1 2 23).isSome && (parseField ms 1 2 59).isSome
      && (parseField ss 1 2 61).isSome
  | _ => false

/-- Two digits with an optional leading colon, as in the `%z` pattern `:?\d\d`. -/
def tzDigits (cs : List Char) : Option (Nat × List Char) :=
  match cs with
  | ':' :: d1 :: d2 :: rest =>
    if d1.isDigit && d2.isDigit then some (digitsToNat [d1, d2], rest) else none
  | d1 :: d2 :: rest =>
    if d1.isDigit && d2.isDigit then some (digitsToNat [d1, d2], rest) else none
  | _ => none

/-- An optional fractional-second suffix `(\.\d{1,6})?` ending the string. -/
def tzFraction (cs : List Char) : Bool :=
  match cs with
  | [] => true
  | '.' :: rest => 1 ≤ rest.length && rest.length ≤ 6 && allDigits rest
  | _ => false

/-- The `%z` field: `[+-]\d\d:?\d\d(:?\d\d(\.\d{1,6})?)?` or a literal `Z`,
with the `timezone` constructor's requirement that the offset be strictly
less than 24 hours. -/
def validTz (cs : List Char) : Bool :=
  match cs with
  | ['Z'] => true
  | sign :: d1 :: d2 :: rest2 =>
    if (sign == '+' || sign == '-') && d1.isDigit && d2.isDigit then
      let hh := digitsToNat [d1, d2]
      match tzDigits rest2 with
      | some (mm, rest3) =>
        (match rest3 with
         | [] => decide (hh * 3600 + mm * 60 < 86400)
         | _ =>
           match tzDigits rest3 with
           | some (ss, rest4) =>
             tzFraction rest4 && decide (hh * 3600 + mm * 60 + ss < 86400)
           | none => false)
      | none => false
    else false
  | _ => false

/-- Split at the first whitespace run, as a `\s+` in a `strptime` format. -/
def splitWs (cs : List Char) : Option (List Char × List Char) :=
  match cs.findIdx? (fun c => c.isWhitespace) with
  | some i =>
    let rest := (cs.drop i).dropWhile (fun c => c.isWhitespace)
    if rest.isEmpty then none else some (cs.take i, rest)
  | none => none

/-- Split at the first `T` or `t` (the case-insensitive literal `T`). -/
def splitT (cs : List Char) : Option (List Char × List Char) :=
  match cs.findIdx? (fun c => c == 'T' || c == 't') with
  | some i => some (cs.take i, cs.drop (i + 1))
  | none => none

/-- Format `"%Y-%m-%d"`. -/
def tryDateOnly (cs : List Char) : Option Int :=
  match parseYMD cs with
  | some (y, m, d) => some (dateOrdinal y m d)
  | none => none

/-- Format `"%Y-%m-%dT%H:%M:%SZ"` (literal `T` and `Z`, case-insensitive). -/
def tryDatetimeT (cs : List Char) : Option Int :=
  match splitT cs with
  | some (dpart, tpart) =>
    match parseYMD dpart with
    | some (y, m, d) =>
      match tpart.getLast? with
      | some c =>
        if (c == 'Z' || c == 'z') && validHMS tpart.dropLast then
          some (dateOrdinal y m d)
        else none
      | none => none
    | none => none
  | none => none

/-- Format `"%Y-%m-%d %H:%M:%S"`. -/
def tryDatetimeSpace (cs : List Char) : Option Int :=
  match splitWs cs with
  | some (dpart, tpart) =>
    match parseYMD dpart with
    | some (y, m, d) => if validHMS tpart then some (dateOrdinal y m d) else none
    | none => none
  | none => none

/-- Format `"%Y-%m-%d %H:%M:%S%z"`: the `%z` field begins right after the
seconds, at the first sign character (or is a bare `Z`). -/
def tryDatetimeTz (cs : List Char) : Option Int :=
  match splitWs cs with
  | some (dpart, tpart) =>
    match parseYMD dpart with
    | some (y, m, d) =>
      match tpart.findIdx? (fun c => c == '+' || c == '-') with
      | some i =>
        if validHMS (tpart.take i) && validTz (tpart.drop i) then
          some (dateOrdinal y m d)
        else none
      | none =>
        match tpart.getLast? with
        | some c =>
          if c == 'Z' && validHMS tpart.dropLast then some (dateOrdinal y m d)
          else none
        | none => none
    | none => none
  | none => none

/-- `parse_date` (app.py:51-64) on an optional stored string: a falsy value
or a string matching no format yields `none`. -/
def parse_date (v : Option String) : Option Int :=
  match v with
  | none => none
  | some s =>
    match s.data with
    | [] => none
    | cs =>
      match tryDateOnly cs with
      | some o => some o
      | none =>
        match tryDatetimeT cs with
        | some o => some o
        | none =>
          match tryDatetimeSpace cs with
          | some o => some o
          | none => tryDatetimeTz cs

/-! ## Data model

One row of the `signals` table (app.py:139-153): every column except the
identifier, title, status and creation timestamp is nullable. -/

structure Signal where
  id : Int
  title : String
  category : Option String
  severity : Option String
  owner : Option String
  due_date : Option String
  status : String
  notes : Option String
  source : Option String
  tags : Option String
  created_at : String
  closed_at : Option String
  updated_at : Option String
deriving DecidableEq

/-- Python truthiness of a nullable text column: `NULL` and `""` are falsy. -/
def truthy : Option String → Bool
  | none => false
  | some s => s != ""

/-- Python `value or dflt` on a nullable text column. -/
def pyOr (v : Option String) (dflt : String) : String :=
  match v with
  | none => dflt
  | some s => if s == "" then dflt else s

def DEFAULT_SEVERITY : String := "medium"

/-! ## Mutating operations (app.py:188-625)

`utc_now()` is passed in as the operation time `now`; the table is a list of
rows, and a SQL `UPDATE ... WHERE id = ?` maps the row transformer over every
row whose identifier matches. -/

/-- Arguments of the `add` command. -/
structure AddArgs where
  title : String
  category : Option String
  severity : Option String
  owner : Option String
  due : Option String
  notes : Option String
  source : Option String
  tags : Option String
deriving DecidableEq

/-- `add_signal` (app.py:188-231): inserts a new row with status `open`,
`severity or DEFAULT_SEVERITY`, `created_at = updated_at = now`, and no
`closed_at`. -/
def add_signal (table : List Signal) (a : AddArgs) (newId : Int) (now : String) :
    List Signal :=
  table ++ [{ id := newId
              title := a.title
              category := a.category
              severity := some (pyOr a.severity DEFAULT_SEVERITY)
              owner := a.owner
              due_date := a.due
              status := "open"
              notes := a.notes
              source := a.source
              tags := a.tags
              created_at := now
              closed_at := none
              updated_at := some now }]

/-- The note suffix `f"\n[{tag}] {note}" if note else ""` used by close and
reopen. -/
def noteSuffix (tag : String) (note : Option String) : String :=
  match note with
  | none => ""
  | some n => if n == "" then "" else "\n[" ++ tag ++ "] " ++ n

/-- Row effect of `close_signal` (app.py:480-493): `SET status='closed',
closed_at=now, updated_at=now, notes=COALESCE(notes,'') || suffix`. -/
def closeRow (note : Option String) (now : String) (r : Signal) : Signal :=
  { r with status := "closed"
           closed_at := some now
           updated_at := some now
           notes := some ((r.notes.getD "") ++ noteSuffix "Closed" note) }

/-- Row effect of `reopen_signal` (app.py:509-521): `SET status='open',
closed_at=NULL, updated_at=now, notes=COALESCE(notes,'') || suffix`. -/
def reopenRow (note : Option String) (now : String) (r : Signal) : Signal :=
  { r with status := "open"
           closed_at := none
           updated_at := some now
           notes := some ((r.notes.getD "") ++ noteSuffix "Reopened" note) }

/-- `close_signal` (app.py:470-496): returns the new table and whether the
identifier was found; an unknown identifier reports "not found" and leaves
the table untouched. -/
def close_signal (table : List Signal) (sid : Int) (note : Option String)
    (now : String) : List Signal × Bool :=
  if table.any (fun r => r.id == sid) then
    (table.map (fun r => if r.id == sid then closeRow note now r else r), true)
  else (table, false)

/-- `reopen_signal` (app.py:499-524). -/
def reopen_signal (table : List Signal) (sid : Int) (note : Option String)
    (now : String) : List Signal × Bool :=
  if table.any (fun r => r.id == sid) then
    (table.map (fun r => if r.id == sid then reopenRow note now r else r), true)
  else (table, false)

/-- Arguments of the `update` command (app.py:1541-1558). -/
structure UpdateArgs where
  signal_id : Int
  title : Option String
  category : Option String
  severity : Option String
  owner : Option String
  due : Option String
  status : Option String
  notes : Option String
  append_note : Option String
  source : Option String
  tags : Option String
  clear_owner : Bool
  clear_category : Bool
  clear_due : Bool
  clear_source : Bool
  clear_tags : Bool
  clear_notes : Bool
deriving DecidableEq

/-- The six set/clear conflict checks at the top of `update_signal`
(app.py:528-545); each tests Python truthiness of the set value. -/
def hasConflict (a : UpdateArgs) : Bool :=
  (truthy a.owner && a.clear_owner) || (truthy a.category && a.clear_category)
    || (truthy a.due && a.clear_due) || (truthy a.source && a.clear_source)
    || (truthy a.tags && a.clear_tags) || (truthy a.notes && a.clear_notes)

/-- Whether `update_signal` accumulates at least one `SET` clause
(app.py:556-605); set values are compared with `is not None`, the
note-append branch with truthiness. -/
def hasUpdates (a : UpdateArgs) : Bool :=
  a.title.isSome || a.category.isSome || a.clear_category || a.severity.isSome
    || a.owner.isSome || a.clear_owner || a.due.isSome || a.clear_due
    || a.source.isSome || a.clear_source || a.tags.isSome || a.clear_tags
    || a.status.isSome || a.clear_notes || a.notes.isSome
    || (a.notes.isNone && truthy a.append_note)

/-- Row effect of `update_signal`'s single `UPDATE` statement: the `SET`
clauses are built in source order (set before clear for each field, the
rightmost assignment to a column winning, as SQLite resolves duplicates),
every right-hand side — in particular `COALESCE(notes, '')` — reads the old
row, `status='closed'` forces `closed_at=now` while any other status clears
it, and `updated_at` is always refreshed. -/
def updateRow (a : UpdateArgs) (now todayIso : String) (r : Signal) : Signal :=
  { id := r.id
    title := match a.title with | some t => t | none => r.title
    category :=
      if a.clear_category then none
      else match a.category with | some c => some c | none => r.category
    severity := match a.severity with | some s => some s | none => r.severity
    owner :=
      if a.clear_owner then none
      else match a.owner with | some o => some o | none => r.owner
    due_date :=
      if a.clear_due then none
      else match a.due with | some d => some d | none => r.due_date
    status := match a.status with | some s => s | none => r.status
    closed_at :=
      match a.status with
      | some s => if s == "closed" then some now else none
      | none => r.closed_at
    source :=
      if a.clear_source then none
      else match a.source with | some s => some s | none => r.source
    tags :=
      if a.clear_tags then none
      else match a.tags with | some t => some t | none => r.tags
    notes :=
      match a.notes with
      | some nv =>
        some (if truthy a.append_note then
                nv ++ "\n[Update " ++ todayIso ++ "] " ++ (a.append_note.getD "")
              else nv)
      | none =>
        if truthy a.append_note then
          some ((r.notes.getD "") ++ "\n[Update " ++ todayIso ++ "] "
                  ++ (a.append_note.getD ""))
        else if a.clear_notes then none
        else r.notes
    created_at := r.created_at
    updated_at := some now }

inductive UpdateOutcome
  | conflict | notFound | noUpdates | ok
deriving DecidableEq

/-- `update_signal` (app.py:527-625): conflict validation first, then the
existence check, then "No updates provided", then one `UPDATE` statement.
`todayIso` stands for `date.today().isoformat()` in appended notes. -/
def update_signal (table : List Signal) (a : UpdateArgs) (now todayIso : String) :
    List Signal × UpdateOutcome :=
  if hasConflict a then (table, .conflict)
  else if !(table.any (fun r => r.id == a.signal_id)) then (table, .notFound)
  else if !(hasUpdates a) then (table, .noUpdates)
  else
    (table.map (fun r => if r.id == a.signal_id then updateRow a now todayIso r else r),
     .ok)

/-! ## Report engine

Each report command fetches a snapshot of rows and post-processes it in
Python; the functions below consume that snapshot (the `WHERE status='open'`
of the fetch is rendered as a filter). -/

/-- Days since creation: `(today - created_date).days if created_date else 0`
(app.py:824). -/
def rowAge (today : Int) (r : Signal) : Int :=
  match parse_date (some r.created_at) with
  | some c => today - c
  | none => 0

/-- `severity_weights.get(row["severity"] or DEFAULT_SEVERITY, 2)`
(app.py:818,826). -/
def severity_weight (s : Option String) : Nat :=
  match pyOr s DEFAULT_SEVERITY with
  | "low" => 1
  | "medium" => 2
  | "high" => 3
  | "critical" => 4
  | _ => 2

/-- One entry of the triage ranking (app.py:848-859). -/
structure ScoredItem where
  id : Int
  title : String
  severity : String
  owner : String
  due : String
  age_days : Int
  score : Int
  reason : String
deriving DecidableEq

/-- The per-row triage scoring loop body (app.py:821-859). -/
def scoreRow (today windowDays : Int) (r : Signal) : ScoredItem :=
  let due := parse_date r.due_date
  let age_days := rowAge today r
  let base : Int := (severity_weight r.severity : Int) * 10
  let dueAdj : Int × List String :=
    match due with
    | some d =>
      if d < today then (15, ["overdue"])
      else if d - today ≤ windowDays then (8, ["due soon"])
      else (0, [])
    | none => (2, ["no due date"])
  let ownAdj : Int × List String :=
    if truthy r.owner then (0, []) else (3, ["unassigned"])
  let ageAdj : Int × List String :=
    if age_days ≥ 14 then (min 12 (Int.fdiv age_days 7), ["aging"]) else (0, [])
  let reasons := dueAdj.2 ++ ownAdj.2 ++ ageAdj.2
  { id := r.id
    title := r.title
    severity := pyOr r.severity DEFAULT_SEVERITY
    owner := pyOr r.owner "Unassigned"
    due := pyOr r.due_date "No due date"
    age_days := age_days
    score := base + dueAdj.1 + ownAdj.1 + ageAdj.1
    reason := if reasons.isEmpty then "recent" else String.intercalate ", " reasons }

/-- The sort key `(score, age_days)` with `reverse=True` (app.py:861): `a`
may precede `b` when its key pair is lexicographically no smaller. -/
def triageLe (a b : ScoredItem) : Bool :=
  decide (b.score < a.score)
    || (a.score == b.score && decide (b.age_days ≤ a.age_days))

/-- The ranked list of the `triage` command: score every open row, then the
stable descending sort of app.py:861. -/
def triage_rank (today windowDays : Int) (rows : List Signal) : List ScoredItem :=
  ((rows.filter (fun r => r.status == "open")).map (scoreRow today windowDays)).mergeSort
    triageLe

/-- The shared overdue / due-soon / due-later / no-due classification chain
(digest app.py:727-734, workload app.py:959-966). -/
inductive DueClass
  | noDue | overdueC | dueSoon | dueLater
deriving DecidableEq

def dueClassOf (today windowDays : Int) (r : Signal) : DueClass :=
  match parse_date r.due_date with
  | none => .noDue
  | some d =>
    if d < today then .overdueC
    else if d - today ≤ windowDays then .dueSoon
    else .dueLater

/-- The `digest` command's overdue list (app.py:725-734): open rows whose
parsed due date is strictly before today. -/
def digest_overdue (today windowDays : Int) (rows : List Signal) : List Signal :=
  (rows.filter (fun r => r.status == "open")).filter
    (fun r => dueClassOf today windowDays r == .overdueC)

/-- The `digest` command's due-soon list (app.py:725-734). -/
def digest_due_soon (today windowDays : Int) (rows : List Signal) : List Signal :=
  (rows.filter (fun r => r.status == "open")).filter
    (fun r => dueClassOf today windowDays r == .dueSoon)

/-- One owner bucket of the `workload` command (app.py:938-950). -/
structure WBucket where
  openCount : Nat
  overdue : Nat
  due_soon : Nat
  due_later : Nat
  no_due : Nat
  age_total : Int
  age_count : Nat
  high_critical : Nat
deriving DecidableEq

def emptyBucket : WBucket :=
  { openCount := 0, overdue := 0, due_soon := 0, due_later := 0, no_due := 0
    age_total := 0, age_count := 0, high_critical := 0 }

/-- The workload grouping key `row["owner"] or "Unassigned"` (app.py:933). -/
def ownerKey (r : Signal) : String :=
  pyOr r.owner "Unassigned"

/-- `(row["severity"] or DEFAULT_SEVERITY) in {"high", "critical"}`
(app.py:956). -/
def isHighCritical (r : Signal) : Bool :=
  pyOr r.severity DEFAULT_SEVERITY == "high"
    || pyOr r.severity DEFAULT_SEVERITY == "critical"

/-- The workload loop body for one row landing in its owner's bucket
(app.py:952-966). -/
def bucketAdd (today windowDays : Int) (b : WBucket) (r : Signal) : WBucket :=
  let cls := dueClassOf today windowDays r
  { openCount := b.openCount + 1
    overdue := b.overdue + (if cls == .overdueC then 1 else 0)
    due_soon := b.due_soon + (if cls == .dueSoon then 1 else 0)
    due_later := b.due_later + (if cls == .dueLater then 1 else 0)
    no_due := b.no_due + (if cls == .noDue then 1 else 0)
    age_total := b.age_total + rowAge today r
    age_count := b.age_count + 1
    high_critical := b.high_critical + (if isHighCritical r then 1 else 0) }

/-- Key list in first-insertion order, as a Python dict built by
`setdefault`. -/
def firstDedup (l : List String) : List String :=
  l.foldl (fun acc k => if k ∈ acc then acc else acc ++ [k]) []

/-- The `workload` owner buckets (app.py:931-966): open rows grouped by
`ownerKey`, in first-insertion order, each bucket folding its rows in
snapshot order. -/
def workload_buckets (today windowDays : Int) (rows : List Signal) :
    List (String × WBucket) :=
  let opens := rows.filter (fun r => r.status == "open")
  (firstDedup (opens.map ownerKey)).map
    (fun k =>
      (k, (opens.filter (fun r => ownerKey r == k)).foldl
            (bucketAdd today windowDays) emptyBucket))

/-- The open rows belonging to owner bucket `k`. -/
def bucketMembers (rows : List Signal) (k : String) : List Signal :=
  (rows.filter (fun r => r.status == "open")).filter (fun r => ownerKey r == k)

/-- Python `round` (banker's rounding) on a rational. -/
def pyRound (q : ℚ) : ℤ :=
  if q - ⌊q⌋ < 1 / 2 then ⌊q⌋
  else if 1 / 2 < q - ⌊q⌋ then ⌊q⌋ + 1
  else if ⌊q⌋ % 2 = 0 then ⌊q⌋ else ⌊q⌋ + 1

/-- `round(x, 1)`: one decimal place. -/
def round1 (q : ℚ) : ℚ :=
  (pyRound (10 * q) : ℚ) / 10

/-- `round(age_total / age_count, 1) if age_count else 0` (app.py:970). -/
def bucketAvgAge (b : WBucket) : ℚ :=
  if b.age_count ≠ 0 then round1 ((b.age_total : ℚ) / (b.age_count : ℚ)) else 0

/-- Section of the `calendar` report a row lands in (app.py:1088-1103). -/
inductive CalBucket
  | overdue | dueToday | week (weekStart : Int) | beyond | noDue
deriving DecidableEq

/-- The `calendar` classification chain (app.py:1088-1103): a week bucket is
keyed by `due - timedelta(days=due.weekday())`, the horizon is
`today + args.days`. -/
def calendarBucket (today horizonDays : Int) (r : Signal) : CalBucket :=
  match parse_date r.due_date with
  | none => .noDue
  | some due =>
    if due < today then .overdue
    else if due == today then .dueToday
    else if due ≤ today + horizonDays then .week (due - weekdayOf due)
    else .beyond

/-- The per-row flags of the `audit` command (app.py:1245-1265): the
missing-field checks test Python truthiness of the raw column, while
overdue and aging use the parsed dates. -/
structure AuditFlags where
  missingOwner : Bool
  missingDue : Bool
  missingCategory : Bool
  missingSeverity : Bool
  missingTags : Bool
  missingSource : Bool
  aging : Bool
  overdue : Bool
deriving DecidableEq

def auditFlags (today staleDays : Int) (r : Signal) : AuditFlags :=
  { missingOwner := !truthy r.owner
    missingDue := !truthy r.due_date
    missingCategory := !truthy r.category
    missingSeverity := !truthy r.severity
    missingTags := !truthy r.tags
    missingSource := !truthy r.source
    aging := decide (rowAge today r ≥ staleDays)
    overdue :=
      match parse_date r.due_date with
      | some d => decide (d < today)
      | none => false }

/-! ## Spec-side definitions

For refinement claims, second definitions written from the specification's
words, to be compared with the code-side functions above. -/

/-- Severity weights exactly as the spec lists them: low=1, medium=2,
high=3, critical=4, unset treated as medium; other values are outside the
spec's table. -/
def specSeverityWeight : Option String → Int
  | none => 2
  | some "low" => 1
  | some "medium" => 2
  | some "high" => 3
  | some "critical" => 4
  | some _ => 0

/-- A value of the spec's severity table. -/
def specSeverityOk (s : Option String) : Prop :=
  s = none ∨ s = some "low" ∨ s = some "medium" ∨ s = some "high"
    ∨ s = some "critical"

instance (s : Option String) : Decidable (specSeverityOk s) := by
  unfold specSeverityOk; infer_instance

/-- The triage score as the spec words it: base weight × 10 plus independent
additive adjustments (+15 overdue, +8 due within the window and not past,
+2 no due date, +3 no owner, +min(12, age//7) once age ≥ 14). -/
def specTriageScore (today windowDays : Int) (r : Signal) : Int :=
  let due := parse_date r.due_date
  let age := rowAge today r
  specSeverityWeight r.severity * 10
    + (match due with | some d => if d < today then 15 else 0 | none => 0)
    + (match due with
       | some d => if ¬d < today ∧ d - today ≤ windowDays then 8 else 0
       | none => 0)
    + (if due.isNone then 2 else 0)
    + (if truthy r.owner then 0 else 3)
    + (if age ≥ 14 then min 12 (Int.fdiv age 7) else 0)

/-- The data-model invariant "closed_at is non-null iff status = closed". -/
def StatusClosedInv (r : Signal) : Prop :=
  r.closed_at.isSome = true ↔ r.status = "closed"

instance (r : Signal) : Decidable (StatusClosedInv r) := by
  unfold StatusClosedInv; infer_instance

/-! ## Concrete example rows (used to instantiate the theorems) -/

/-- A closed row with identifier 1. -/
def sampleClosedRow : Signal :=
  { id := 1, title := "t", category := none, severity := none, owner := none,
    due_date := none, status := "closed", notes := none, source := none,
    tags := none, created_at := "2026-01-01",
    closed_at := some "2026-01-02T00:00:00Z", updated_at := none }

/-- An open row with identifier 1. -/
def sampleOpenRow : Signal :=
  { id := 1, title := "t", category := none, severity := none, owner := none,
    due_date := none, status := "open", notes := none, source := none,
    tags := none, created_at := "2026-01-01", closed_at := none,
    updated_at := none }

/-- The spec's triage scenario: created 20 days before 2026-03-21, severity
critical, due 5 days in the past, no owner. -/
def scenarioRow : Signal :=
  { id := 3, title := "scenario", category := none,
    severity := some "critical", owner := none,
    due_date := some "2026-03-16", status := "open", notes := none,
    source := none, tags := none, created_at := "2026-03-01",
    closed_at := none, updated_at := none }

/-- An open row due on Wednesday 2026-02-18 (ordinal 739665). -/
def wednesdayRow : Signal :=
  { id := 5, title := "w", category := none, severity := none, owner := none,
    due_date := some "2026-02-18", status := "open", notes := none,
    source := none, tags := none, created_at := "2026-02-01",
    closed_at := none, updated_at := none }

/-- An open row whose due-date string parses in no accepted format. -/
def malformedDueRow : Signal :=
  { id := 7, title := "x", category := none, severity := none, owner := none,
    due_date := some "notadate", status := "open", notes := none,
    source := none, tags := none, created_at := "2026-01-01",
    closed_at := none, updated_at := none }

/-! ## Sanity checks against Python ground truth -/

example : parse_date (some "2026-02-20") = some 739667 := by decide
example : parse_date (some "2026-2-5") = some 739652 := by decide
example : parse_date (some "2026-02-20T10:11:12Z") = some 739667 := by decide
example : parse_date (some "2026-02-20 10:11:12") = some 739667 := by decide
example : parse_date (some "2026-02-20 10:11:12+05:30") = some 739667 := by decide
example : parse_date (some "notadate") = none := by decide
example : parse_date (some "2026-13-99") = none := by decide
example : parse_date (some "2026-02-30") = none := by decide
example : parse_date (some "") = none := by decide
example : parse_date none = none := by decide
example : weekdayOf 739665 = 2 := by decide

/-! ## Helper lemmas -/

/-- Destructure membership in a `WHERE id = sid` row map. -/
theorem mem_map_ite {f : Signal → Signal} {table : List Signal} {sid : Int}
    {r : Signal}
    (h : r ∈ table.map (fun x => if x.id == sid then f x else x)) :
    ∃ r0 ∈ table, (r0.id = sid ∧ r = f r0) ∨ (r0.id ≠ sid ∧ r = r0) := by
  obtain ⟨r0, h0, hf⟩ := List.mem_map.mp h
  by_cases hid : r0.id = sid
  · refine ⟨r0, h0, Or.inl ⟨hid, ?_⟩⟩
    simp [hid] at hf
    exact hf.symm
  · refine ⟨r0, h0, Or.inr ⟨hid, ?_⟩⟩
    simp [hid] at hf
    exact hf.symm

/-- An identifier present in the table makes the existence probe succeed. -/
theorem any_id_eq_true {table : List Signal} {sid : Int}
    (h : ∃ r0 ∈ table, r0.id = sid) :
    (table.any (fun r => r.id == sid)) = true := by
  simpa [List.any_eq_true] using h

/-- C2: reopening a closed signal sets status to open and clears `closed_at`;
closing an open signal sets status to closed and `closed_at` to the operation
time; both refresh `updated_at` to the operation time. -/
theorem close_reopen_set_status_and_timestamps
    (table : List Signal) (sid : Int) (note : Option String) (now : String) :
    ((∃ r0 ∈ table, r0.id = sid ∧ r0.status = "closed") →
      ∀ r ∈ (reopen_signal table sid note now).1, r.id = sid →
        r.status = "open" ∧ r.closed_at = none ∧ r.updated_at = some now)
    ∧ ((∃ r0 ∈ table, r0.id = sid ∧ r0.status = "open") →
      ∀ r ∈ (close_signal table sid note now).1, r.id = sid →
        r.status = "closed" ∧ r.closed_at = some now ∧ r.updated_at = some now) := by
  constructor
  · rintro ⟨r0, h0, hid, -⟩ r hr hrid
    rw [reopen_signal, if_pos (any_id_eq_true ⟨r0, h0, hid⟩)] at hr
    obtain ⟨r1, -, h1⟩ := mem_map_ite hr
    rcases h1 with ⟨-, rfl⟩ | ⟨hne, rfl⟩
    · exact ⟨rfl, rfl, rfl⟩
    · exact absurd hrid hne
  · rintro ⟨r0, h0, hid, -⟩ r hr hrid
    rw [close_signal, if_pos (any_id_eq_true ⟨r0, h0, hid⟩)] at hr
    obtain ⟨r1, -, h1⟩ := mem_map_ite hr
    rcases h1 with ⟨-, rfl⟩ | ⟨hne, rfl⟩
    · exact ⟨rfl, rfl, rfl⟩
    · exact absurd hrid hne

/-- Witness for C2 on a one-row table. -/
theorem close_reopen_set_status_and_timestamps_witness :
    ∀ r ∈ (reopen_signal [sampleClosedRow] 1 none "2026-01-03T00:00:00Z").1,
      r.id = 1 →
        r.status = "open" ∧ r.closed_at = none
          ∧ r.updated_at = some "2026-01-03T00:00:00Z" :=
  (close_reopen_set_status_and_timestamps [sampleClosedRow] 1 none
      "2026-01-03T00:00:00Z").1
    ⟨sampleClosedRow, by decide, rfl, rfl⟩

/-- C10: close and reopen impose no precondition on the current status; for
any existing signal they succeed, close overwrites `closed_at` with the new
operation time, and reopen leaves status open with `closed_at` null,
refreshing `updated_at`. -/
theorem close_reopen_ignore_current_status
    (table : List Signal) (sid : Int) (note : Option String) (now : String)
    (hex : ∃ r0 ∈ table, r0.id = sid) :
    (close_signal table sid note now).2 = true
    ∧ (reopen_signal table sid note now).2 = true
    ∧ (∀ r ∈ (close_signal table sid note now).1, r.id = sid →
        r.status = "closed" ∧ r.closed_at = some now ∧ r.updated_at = some now)
    ∧ (∀ r ∈ (reopen_signal table sid note now).1, r.id = sid →
        r.status = "open" ∧ r.closed_at = none ∧ r.updated_at = some now) := by
  have hany := any_id_eq_true hex
  refine ⟨by rw [close_signal, if_pos hany], by rw [reopen_signal, if_pos hany],
    ?_, ?_⟩
  · intro r hr hrid
    rw [close_signal, if_pos hany] at hr
    obtain ⟨r1, -, h1⟩ := mem_map_ite hr
    rcases h1 with ⟨-, rfl⟩ | ⟨hne, rfl⟩
    · exact ⟨rfl, rfl, rfl⟩
    · exact absurd hrid hne
  · intro r hr hrid
    rw [reopen_signal, if_pos hany] at hr
    obtain ⟨r1, -, h1⟩ := mem_map_ite hr
    rcases h1 with ⟨-, rfl⟩ | ⟨hne, rfl⟩
    · exact ⟨rfl, rfl, rfl⟩
    · exact absurd hrid hne

/-- Witness for C10: closing an already-closed one-row table succeeds. -/
theorem close_reopen_ignore_current_status_witness :
    (close_signal [sampleClosedRow] 1 none "2026-01-05T00:00:00Z").2 = true :=
  (close_reopen_ignore_current_status [sampleClosedRow] 1 none
    "2026-01-05T00:00:00Z" ⟨sampleClosedRow, by decide, rfl⟩).1

/-- C8: close, reopen and update on an identifier absent from the table
report "not found", leave the whole table unchanged, and return normally
(the process exit stays successful; only configuration errors call
`sys.exit(1)`).  A conflicting set/clear pair on `update` is reported
before the existence check, so the not-found outcome is stated for
non-conflicting arguments; the table is untouched in every such path. -/
theorem not_found_reports_and_leaves_table
    (table : List Signal) (sid : Int) (note : Option String)
    (now todayIso : String) (a : UpdateArgs)
    (habsent : ∀ r ∈ table, r.id ≠ sid) :
    close_signal table sid note now = (table, false)
    ∧ reopen_signal table sid note now = (table, false)
    ∧ (a.signal_id = sid →
        (update_signal table a now todayIso).1 = table
        ∧ (hasConflict a = false →
            (update_signal table a now todayIso).2 = UpdateOutcome.notFound)) := by
  have hany : (table.any (fun r => r.id == sid)) = false := by
    simp only [List.any_eq_false, beq_iff_eq]
    exact habsent
  refine ⟨by rw [close_signal, hany]; rfl, by rw [reopen_signal, hany]; rfl, ?_⟩
  rintro rfl
  constructor
  · rw [update_signal]
    split
    · rfl
    · rw [if_pos (by simp [hany])]
  · intro hc
    rw [update_signal, if_neg (by simp [hc]), if_pos (by simp [hany])]

/-- Witness for C8 on a one-row table and identifier 99. -/
theorem not_found_reports_and_leaves_table_witness :
    close_signal [sampleOpenRow] 99 none "2026-01-05T00:00:00Z"
      = ([sampleOpenRow], false) :=
  (not_found_reports_and_leaves_table [sampleOpenRow] 99 none
    "2026-01-05T00:00:00Z" ""
    { signal_id := 99, title := none, category := none, severity := none,
      owner := none, due := none, status := none, notes := none,
      append_note := none, source := none, tags := none, clear_owner := false,
      clear_category := false, clear_due := false, clear_source := false,
      clear_tags := false, clear_notes := false }
    (by decide)).1

/-- C9: close and reopen modify only `status`, `closed_at`, `updated_at` and
`notes`; `notes` is rewritten as `COALESCE(notes, '')` plus the note suffix,
so with no note a null `notes` becomes the empty string and a non-null
`notes` keeps its content; rows with another identifier are untouched. -/
theorem close_reopen_frame
    (table : List Signal) (sid : Int) (note : Option String) (now : String) :
    ((∃ r0 ∈ table, r0.id = sid) →
      (close_signal table sid note now).1
          = table.map (fun r => if r.id == sid then closeRow note now r else r)
        ∧ (reopen_signal table sid note now).1
          = table.map (fun r => if r.id == sid then reopenRow note now r else r))
    ∧ (∀ r, (closeRow note now r).id = r.id
        ∧ (closeRow note now r).title = r.title
        ∧ (closeRow note now r).category = r.category
        ∧ (closeRow note now r).severity = r.severity
        ∧ (closeRow note now r).owner = r.owner
        ∧ (closeRow note now r).due_date = r.due_date
        ∧ (closeRow note now r).source = r.source
        ∧ (closeRow note now r).tags = r.tags
        ∧ (closeRow note now r).created_at = r.created_at
        ∧ (closeRow note now r).notes
            = some ((r.notes.getD "") ++ noteSuffix "Closed" note))
    ∧ (∀ r, (reopenRow note now r).id = r.id
        ∧ (reopenRow note now r).title = r.title
        ∧ (reopenRow note now r).category = r.category
        ∧ (reopenRow note now r).severity = r.severity
        ∧ (reopenRow note now r).owner = r.owner
        ∧ (reopenRow note now r).due_date = r.due_date
        ∧ (reopenRow note now r).source = r.source
        ∧ (reopenRow note now r).tags = r.tags
        ∧ (reopenRow note now r).created_at = r.created_at
        ∧ (reopenRow note now r).notes
            = some ((r.notes.getD "") ++ noteSuffix "Reopened" note))
    ∧ (note = none →
        (∀ r, r.notes = none →
          (closeRow note now r).notes = some ""
            ∧ (reopenRow note now r).notes = some "")
        ∧ (∀ r s, r.notes = some s →
          (closeRow note now r).notes = some s
            ∧ (reopenRow note now r).notes = some s)) := by
  refine ⟨fun hex => ⟨?_, ?_⟩,
    fun r => ⟨rfl, rfl, rfl, rfl, rfl, rfl, rfl, rfl, rfl, rfl⟩,
    fun r => ⟨rfl, rfl, rfl, rfl, rfl, rfl, rfl, rfl, rfl, rfl⟩, ?_⟩
  · rw [close_signal, if_pos (any_id_eq_true hex)]
  · rw [reopen_signal, if_pos (any_id_eq_true hex)]
  · rintro rfl
    constructor
    · intro r h
      constructor <;> simp [closeRow, reopenRow, noteSuffix, h]
    · intro r s h
      constructor <;> simp [closeRow, reopenRow, noteSuffix, h]

/-- Witness for C9 on a one-row table. -/
theorem close_reopen_frame_witness :
    (close_signal [sampleOpenRow] 1 none "2026-01-05T00:00:00Z").1
      = [sampleOpenRow].map
          (fun r => if r.id == 1 then closeRow none "2026-01-05T00:00:00Z" r
                    else r) :=
  ((close_reopen_frame [sampleOpenRow] 1 none "2026-01-05T00:00:00Z").1
    ⟨sampleOpenRow, by decide, rfl⟩).1

/-- C6: the invariant "closed_at is non-null iff status = closed" is
preserved by add, close, reopen and update (including an update that sets
the status). -/
theorem status_closed_invariant_preserved
    (table : List Signal) (hinv : ∀ r ∈ table, StatusClosedInv r) :
    (∀ (a : AddArgs) (newId : Int) (now : String),
      ∀ r ∈ add_signal table a newId now, StatusClosedInv r)
    ∧ (∀ (sid : Int) (note : Option String) (now : String),
      (∀ r ∈ (close_signal table sid note now).1, StatusClosedInv r)
        ∧ (∀ r ∈ (reopen_signal table sid note now).1, StatusClosedInv r))
    ∧ (∀ (a : UpdateArgs) (now todayIso : String),
      ∀ r ∈ (update_signal table a now todayIso).1, StatusClosedInv r) := by
  refine ⟨?_, ?_, ?_⟩
  · intro a newId now r hr
    rcases List.mem_append.mp hr with h | h
    · exact hinv r h
    · rcases List.mem_singleton.mp h with rfl
      simp [StatusClosedInv]
  · intro sid note now
    constructor
    · intro r hr
      rw [close_signal] at hr
      split at hr
      · obtain ⟨r0, h0, h1⟩ := mem_map_ite hr
        rcases h1 with ⟨-, rfl⟩ | ⟨-, rfl⟩
        · simp [StatusClosedInv, closeRow]
        · exact hinv _ h0
      · exact hinv r hr
    · intro r hr
      rw [reopen_signal] at hr
      split at hr
      · obtain ⟨r0, h0, h1⟩ := mem_map_ite hr
        rcases h1 with ⟨-, rfl⟩ | ⟨-, rfl⟩
        · simp [StatusClosedInv, reopenRow]
        · exact hinv _ h0
      · exact hinv r hr
  · intro a now todayIso r hr
    rw [update_signal] at hr
    split at hr
    · exact hinv r hr
    split at hr
    · exact hinv r hr
    split at hr
    · exact hinv r hr
    obtain ⟨r0, h0, h1⟩ := mem_map_ite hr
    rcases h1 with ⟨-, rfl⟩ | ⟨-, rfl⟩
    · rcases hs : a.status with - | s
      · have := hinv r0 h0
        simpa [StatusClosedInv, updateRow, hs] using this
      · by_cases hc : s = "closed"
        · simp [StatusClosedInv, updateRow, hs, hc]
        · simp [StatusClosedInv, updateRow, hs, hc]
    · exact hinv _ h0

/-- Witness for C6: the invariant holds after closing a valid one-row
table. -/
theorem status_closed_invariant_preserved_witness :
    StatusClosedInv (closeRow none "2026-01-05T00:00:00Z" sampleOpenRow) :=
  ((status_closed_invariant_preserved [sampleOpenRow]
      (by intro r hr; rcases List.mem_singleton.mp hr with rfl; decide)).2.1
    1 none "2026-01-05T00:00:00Z").1
    (closeRow none "2026-01-05T00:00:00Z" sampleOpenRow) (by decide)

/-- C1: for every open signal the triage score equals the spec formula
(severity weight × 10 plus the independent additive adjustments), and the
spec's scenario — created 20 days ago, severity critical, due 5 days in the
past, no owner — scores 4×10 + 15 + 3 + 2 = 60 with reasons
"overdue, unassigned, aging".  `dateOrdinal 2026 3 21` is "today" for the
scenario. -/
theorem triage_score_matches_spec :
    (∀ (today windowDays : Int) (r : Signal), specSeverityOk r.severity →
      (scoreRow today windowDays r).score = specTriageScore today windowDays r)
    ∧ (scoreRow (dateOrdinal 2026 3 21) 14 scenarioRow).score = 60
    ∧ (scoreRow (dateOrdinal 2026 3 21) 14 scenarioRow).reason
        = "overdue, unassigned, aging" := by
  refine ⟨?_, by decide, by decide⟩
  intro today windowDays r hsev
  have hw : (severity_weight r.severity : Int) = specSeverityWeight r.severity := by
    rcases hsev with h | h | h | h | h <;> rw [h] <;> rfl
  cases hdue : parse_date r.due_date <;> cases hown : truthy r.owner <;>
    simp [scoreRow, specTriageScore, hdue, hown] <;> split_ifs <;> omega

/-- Witness for C1 at the scenario row. -/
theorem triage_score_matches_spec_witness :
    specSeverityOk scenarioRow.severity
      ∧ (scoreRow (dateOrdinal 2026 3 21) 14 scenarioRow).score
          = specTriageScore (dateOrdinal 2026 3 21) 14 scenarioRow :=
  ⟨by decide,
   triage_score_matches_spec.1 (dateOrdinal 2026 3 21) 14 scenarioRow (by decide)⟩

/-- C3: whenever the calendar report places an open signal with a parseable
due date in a weekly bucket, the bucket key is `due - due.weekday()` — the
Monday on or before the due date — and that key does not depend on the
horizon length. -/
theorem calendar_week_bucket_is_monday
    (today horizonDays : Int) (r : Signal) (due k : Int)
    (hdue : parse_date r.due_date = some due)
    (hk : calendarBucket today horizonDays r = CalBucket.week k) :
    k = due - weekdayOf due
    ∧ weekdayOf k = 0
    ∧ k ≤ due ∧ due < k + 7
    ∧ (∀ horizonDays' k',
        calendarBucket today horizonDays' r = CalBucket.week k' → k' = k) := by
  simp only [calendarBucket, hdue] at hk
  split_ifs at hk with h1 h2 h3; simp at hk
  subst hk
  refine ⟨rfl, by unfold weekdayOf; omega, by unfold weekdayOf; omega,
    by unfold weekdayOf; omega, ?_⟩
  intro horizonDays' k' hk'
  simp only [calendarBucket, hdue] at hk'
  split_ifs at hk' with g1; simp at hk'
  exact hk'.symm

/-- Witness for C3: a signal due Wednesday 2026-02-18 is keyed by Monday
2026-02-16 (739663) under a 30-day horizon from 2026-02-16. -/
theorem calendar_week_bucket_is_monday_witness :
    (739663 : Int) = 739665 - weekdayOf 739665
    ∧ weekdayOf 739663 = 0
    ∧ (739663 : Int) ≤ 739665 ∧ (739665 : Int) < 739663 + 7
    ∧ (∀ horizonDays' k',
        calendarBucket 739663 horizonDays' wednesdayRow = CalBucket.week k'
          → k' = 739663) :=
  calendar_week_bucket_is_monday 739663 30 wednesdayRow 739665 739663
    (by decide) (by decide)

/-- C4: the triage ranking is sorted descending by the pair
`(score, age_days)` — higher score first, ties broken by the larger age —
and is a permutation of the scored open rows. -/
theorem triage_rank_sorted_desc (today windowDays : Int) (rows : List Signal) :
    List.Pairwise (fun a b : ScoredItem =>
        b.score < a.score ∨ (a.score = b.score ∧ b.age_days ≤ a.age_days))
      (triage_rank today windowDays rows)
    ∧ (triage_rank today windowDays rows).Perm
        ((rows.filter (fun r => r.status == "open")).map
          (scoreRow today windowDays)) := by
  unfold triage_rank
  constructor
  · have htrans : ∀ a b c : ScoredItem,
        triageLe a b → triageLe b c → triageLe a c := by
      intro a b c hab hbc
      simp only [triageLe, Bool.or_eq_true, Bool.and_eq_true,
        decide_eq_true_eq, beq_iff_eq] at *
      omega
    have htotal : ∀ a b : ScoredItem, triageLe a b || triageLe b a := by
      intro a b
      simp only [triageLe, Bool.or_eq_true, Bool.and_eq_true,
        decide_eq_true_eq, beq_iff_eq]
      omega
    have h := List.sorted_mergeSort htrans htotal
      ((rows.filter (fun r => r.status == "open")).map (scoreRow today windowDays))
    refine h.imp ?_
    intro a b hab
    simp only [triageLe, Bool.or_eq_true, Bool.and_eq_true,
      decide_eq_true_eq, beq_iff_eq] at hab
    tauto
  · exact List.mergeSort_perm _ _

/-- The first-insertion dedup keeps lists duplicate-free. -/
theorem foldl_dedup_nodup (l : List String) :
    ∀ acc : List String, acc.Nodup →
      (l.foldl (fun acc k => if k ∈ acc then acc else acc ++ [k]) acc).Nodup := by
  induction l with
  | nil => intro acc h; simpa using h
  | cons k l ih =>
    intro acc h
    simp only [List.foldl_cons]
    by_cases hk : k ∈ acc
    · rw [if_pos hk]; exact ih acc h
    · rw [if_neg hk]
      refine ih _ ?_
      simp [List.nodup_append, h, hk]

theorem firstDedup_nodup (l : List String) : (firstDedup l).Nodup :=
  foldl_dedup_nodup l [] (by simp)

theorem mem_foldl_dedup (a : String) :
    ∀ (l acc : List String),
      (a ∈ l.foldl (fun acc k => if k ∈ acc then acc else acc ++ [k]) acc
        ↔ a ∈ acc ∨ a ∈ l) := by
  intro l
  induction l with
  | nil => intro acc; simp
  | cons k l ih =>
    intro acc
    simp only [List.foldl_cons, List.mem_cons]
    by_cases hk : k ∈ acc
    · rw [if_pos hk, ih]
      constructor
      · tauto
      · rintro (h | rfl | h) <;> tauto
    · rw [if_neg hk, ih]
      simp only [List.mem_append, List.mem_singleton]
      tauto

theorem mem_firstDedup {a : String} {l : List String} :
    a ∈ firstDedup l ↔ a ∈ l := by
  unfold firstDedup
  rw [mem_foldl_dedup]
  simp

/-- Counting effect of folding rows into one workload bucket. -/
theorem foldl_bucketAdd (today windowDays : Int) :
    ∀ (l : List Signal) (b : WBucket),
      (l.foldl (bucketAdd today windowDays) b).openCount = b.openCount + l.length
      ∧ (l.foldl (bucketAdd today windowDays) b).age_count = b.age_count + l.length
      ∧ (l.foldl (bucketAdd today windowDays) b).age_total
          = b.age_total + (l.map (rowAge today)).sum := by
  intro l
  induction l with
  | nil => intro b; simp
  | cons r l ih =>
    intro b
    have h := ih (bucketAdd today windowDays b r)
    simp only [List.foldl_cons, List.length_cons, List.map_cons, List.sum_cons]
    refine ⟨?_, ?_, ?_⟩
    · rw [h.1]; simp only [bucketAdd]; omega
    · rw [h.2.1]; simp only [bucketAdd]; omega
    · rw [h.2.2]; simp only [bucketAdd]; ring

/-- Summing per-key filtered lengths over duplicate-free covering keys counts
the whole list. -/
theorem sum_filter_lengths (f : Signal → String) :
    ∀ (keys : List String) (l : List Signal), keys.Nodup →
      (∀ x ∈ l, f x ∈ keys) →
      (keys.map (fun k => (l.filter (fun x => f x == k)).length)).sum
        = l.length := by
  intro keys
  induction keys with
  | nil =>
    intro l _ hcov
    have hl : l = [] :=
      List.eq_nil_iff_forall_not_mem.mpr (fun x hx => by simpa using hcov x hx)
    subst hl
    simp
  | cons k ks ih =>
    intro l hnd hcov
    simp only [List.map_cons, List.sum_cons]
    have hksnd : ks.Nodup := List.Nodup.of_cons hnd
    have hknotin : k ∉ ks := List.Nodup.not_mem hnd
    have hmap : ks.map (fun k2 => (l.filter (fun x => f x == k2)).length)
        = ks.map (fun k2 =>
            ((l.filter (fun x => !(f x == k))).filter
              (fun x => f x == k2)).length) := by
      apply List.map_congr_left
      intro k2 hk2
      have hne : k2 ≠ k := fun h => hknotin (h ▸ hk2)
      congr 1
      rw [List.filter_filter]
      apply List.filter_congr
      intro x hx
      by_cases hfx : f x = k2
      · have : (f x == k) = false := by
          simp only [beq_eq_false_iff_ne, ne_eq]
          rw [hfx]; exact hne
        simp only [hfx, this]
        simp [hne]
      · simp [hfx]
    have hcov2 : ∀ x ∈ l.filter (fun x => !(f x == k)), f x ∈ ks := by
      intro x hx
      rw [List.mem_filter] at hx
      have h2 : f x ≠ k := by
        have h3 := hx.2
        simp only [Bool.not_eq_true', beq_eq_false_iff_ne, ne_eq] at h3
        exact h3
      rcases List.mem_cons.mp (hcov x hx.1) with h | h
      · exact absurd h h2
      · exact h
    rw [hmap, ih (l.filter fun x => !(f x == k)) hksnd hcov2]
    exact (List.length_eq_length_filter_add (fun x => f x == k)).symm

/-- C5: the workload owner buckets partition the open signals exhaustively
and disjointly — keys are duplicate-free, every open signal's key (absent
owner → "Unassigned") has a bucket, the bucket counts add up to the number
of open signals, and each bucket counts exactly its members — and each
bucket's average age is the arithmetic mean of its members' ages in days,
rounded to one decimal place. -/
theorem workload_buckets_partition_and_avg
    (today windowDays : Int) (rows : List Signal) :
    ((workload_buckets today windowDays rows).map Prod.fst).Nodup
    ∧ (∀ r ∈ rows.filter (fun r => r.status == "open"),
        ownerKey r ∈ (workload_buckets today windowDays rows).map Prod.fst)
    ∧ (∀ r : Signal, r.owner = none → ownerKey r = "Unassigned")
    ∧ ((workload_buckets today windowDays rows).map
          (fun p => p.2.openCount)).sum
        = (rows.filter (fun r => r.status == "open")).length
    ∧ (∀ p ∈ workload_buckets today windowDays rows,
        p.2.openCount = (bucketMembers rows p.1).length
        ∧ bucketAvgAge p.2
            = round1 ((((bucketMembers rows p.1).map (rowAge today)).sum : ℚ)
                / ((bucketMembers rows p.1).length : ℚ))) := by
  have hfst : (workload_buckets today windowDays rows).map Prod.fst
      = firstDedup ((rows.filter (fun r => r.status == "open")).map ownerKey) := by
    simp only [workload_buckets, List.map_map]
    exact List.map_id' _
  have hcover : ∀ x ∈ rows.filter (fun r => r.status == "open"),
      ownerKey x ∈ firstDedup
        ((rows.filter (fun r => r.status == "open")).map ownerKey) :=
    fun x hx => mem_firstDedup.mpr (List.mem_map_of_mem _ hx)
  refine ⟨?_, ?_, ?_, ?_, ?_⟩
  · rw [hfst]; exact firstDedup_nodup _
  · intro r hr
    rw [hfst]
    exact hcover r hr
  · intro r h
    simp [ownerKey, pyOr, h]
  · have hmapeq : (workload_buckets today windowDays rows).map
        (fun p => p.2.openCount)
        = (firstDedup ((rows.filter (fun r => r.status == "open")).map
            ownerKey)).map
            (fun k => ((rows.filter (fun r => r.status == "open")).filter
              (fun x => ownerKey x == k)).length) := by
      simp only [workload_buckets, List.map_map]
      apply List.map_congr_left
      intro k hk
      have h := (foldl_bucketAdd today windowDays
        ((rows.filter (fun r => r.status == "open")).filter
          (fun r => ownerKey r == k)) emptyBucket).1
      simpa [emptyBucket] using h
    rw [hmapeq]
    exact sum_filter_lengths ownerKey _ _ (firstDedup_nodup _) hcover
  · intro p hp
    simp only [workload_buckets, List.mem_map] at hp
    obtain ⟨k, hk, rfl⟩ := hp
    have h := foldl_bucketAdd today windowDays
      ((rows.filter (fun r => r.status == "open")).filter
        (fun r => ownerKey r == k)) emptyBucket
    have hlen : 0 < ((rows.filter (fun r => r.status == "open")).filter
        (fun r => ownerKey r == k)).length := by
      rw [mem_firstDedup] at hk
      obtain ⟨r, hr, hrk⟩ := List.mem_map.mp hk
      exact List.length_pos.mpr
        (List.ne_nil_of_mem (List.mem_filter.mpr ⟨hr, by simp [hrk]⟩))
    have hcnt : ((( rows.filter (fun r => r.status == "open")).filter
        (fun r => ownerKey r == k)).foldl (bucketAdd today windowDays)
          emptyBucket).age_count
        = ((rows.filter (fun r => r.status == "open")).filter
            (fun r => ownerKey r == k)).length := by
      simpa [emptyBucket] using h.2.1
    constructor
    · simpa [emptyBucket, bucketMembers] using h.1
    · show bucketAvgAge _ = _
      rw [bucketAvgAge, if_pos (by rw [hcnt]; omega)]
      have htot : ((( rows.filter (fun r => r.status == "open")).filter
          (fun r => ownerKey r == k)).foldl (bucketAdd today windowDays)
            emptyBucket).age_total
          = (((rows.filter (fun r => r.status == "open")).filter
              (fun r => ownerKey r == k)).map (rowAge today)).sum := by
        simpa [emptyBucket] using h.2.2
      rw [hcnt, htot]
      rfl

/-- Witness for C5: the single-bucket workload of a one-row table. -/
theorem workload_buckets_partition_and_avg_witness :
    ({ openCount := 1, overdue := 0, due_soon := 0, due_later := 0,
       no_due := 1, age_total := 50, age_count := 1,
       high_critical := 0 } : WBucket).openCount
      = (bucketMembers [sampleOpenRow] "Unassigned").length
    ∧ bucketAvgAge
        { openCount := 1, overdue := 0, due_soon := 0, due_later := 0,
          no_due := 1, age_total := 50, age_count := 1, high_critical := 0 }
      = round1 ((((bucketMembers [sampleOpenRow] "Unassigned").map
            (rowAge 739667)).sum : ℚ)
          / ((bucketMembers [sampleOpenRow] "Unassigned").length : ℚ)) :=
  (workload_buckets_partition_and_avg 739667 14 [sampleOpenRow]).2.2.2.2
    ("Unassigned",
      { openCount := 1, overdue := 0, due_soon := 0, due_later := 0,
        no_due := 1, age_total := 50, age_count := 1, high_critical := 0 })
    (by decide)

/-- C7 counterexample: in the audit report a signal with a malformed
non-empty due_date string is NOT classified like one with no due date —
`audit` tests `if not row["due_date"]` on the raw string, so the malformed
row is absent from the "Missing Due Date" list while the row with a null
due_date is in it. -/
theorem audit_malformed_due_counterexample :
    parse_date malformedDueRow.due_date = none
    ∧ (auditFlags 739667 21 malformedDueRow).missingDue = false
    ∧ (auditFlags 739667 21
        { malformedDueRow with due_date := none }).missingDue = true
    ∧ auditFlags 739667 21 malformedDueRow
        ≠ auditFlags 739667 21 { malformedDueRow with due_date := none } := by
  refine ⟨by decide, by decide, by decide, by decide⟩

theorem parse_date_none : parse_date none = none := rfl

/-- Clearing the due date does not change the age computation. -/
theorem rowAge_set_due (today : Int) (r : Signal) :
    rowAge today { r with due_date := none } = rowAge today r := rfl

/-- C7 amended: a due_date or created_at that is absent or fails to parse is
silently excluded from every date-based comparison — the triage score and
reasons, the digest and workload due classification, the calendar bucket and
the audit overdue flag treat an unparseable due_date exactly as an absent
one, and an unparseable created_at yields age 0 — but audit's missing-field
listings test raw string presence, so a malformed non-empty due_date is not
listed under "Missing Due Date". -/
theorem malformed_dates_excluded
    (today windowDays horizonDays staleDays : Int) (r : Signal)
    (hdue : parse_date r.due_date = none) :
    (scoreRow today windowDays r).score
        = (scoreRow today windowDays { r with due_date := none }).score
    ∧ (scoreRow today windowDays r).reason
        = (scoreRow today windowDays { r with due_date := none }).reason
    ∧ dueClassOf today windowDays r = DueClass.noDue
    ∧ calendarBucket today horizonDays r = CalBucket.noDue
    ∧ (∀ rows : List Signal, r ∉ digest_overdue today windowDays rows
        ∧ r ∉ digest_due_soon today windowDays rows)
    ∧ (auditFlags today staleDays r).overdue = false
    ∧ (parse_date (some r.created_at) = none → rowAge today r = 0) := by
  refine ⟨?_, ?_, ?_, ?_, ?_, ?_, ?_⟩
  · simp [scoreRow, hdue, parse_date_none, rowAge_set_due]
  · simp [scoreRow, hdue, parse_date_none, rowAge_set_due]
  · simp [dueClassOf, hdue]
  · simp [calendarBucket, hdue]
  · intro rows
    constructor
    · intro hmem
      rw [digest_overdue, List.mem_filter] at hmem
      have h2 := hmem.2
      simp [dueClassOf, hdue] at h2
    · intro hmem
      rw [digest_due_soon, List.mem_filter] at hmem
      have h2 := hmem.2
      simp [dueClassOf, hdue] at h2
  · simp [auditFlags, hdue]
  · intro h
    simp [rowAge, h]

/-- Witness for the amended C7 at the malformed row. -/
theorem malformed_dates_excluded_witness :
    dueClassOf 739667 14 malformedDueRow = DueClass.noDue :=
  (malformed_dates_excluded 739667 14 30 21 malformedDueRow (by decide)).2.2.1

end SignalCatalog
